import Mathlib

set_option maxRecDepth 100000

/-!
Verification development for the pgvector workbench backend (Python/FastAPI).

Shallow embedding of the connection-session manager and the dynamic query
construction in `src/backend/database.py`, `src/backend/session_manager.py`,
`src/backend/api.py` and `src/backend/main.py`.  Pure query-building code is
translated to Lean functions over strings; stateful code (caches, the session
registry) is translated to explicit state passing.  Outcomes of external
calls (pool creation, liveness probes) are passed in as boolean parameters.
-/

/-- Python per-character `str.isalnum` test, as used by
`DatabaseManager._is_safe_identifier` (`database.py` line 123:
`c.isalnum() or c == \x27_\x27`).  Python consults the full Unicode
database; this model is exact on the Basic Latin and Latin-1 Supplement
blocks (code points up to U+00FF), which are the only code points this
development evaluates it on.  On ASCII it coincides with `Char.isAlphanum`
(`[A-Za-z0-9]`); on U+0080 to U+00FF the alphanumeric code points are
U+00AA, U+00B2, U+00B3, U+00B5, U+00B9, U+00BA, U+00BC to U+00BE, and
U+00C0 to U+00FF except the multiplication sign U+00D7 and the division
sign U+00F7. -/
def pyIsAlnum (c : Char) : Bool :=
  let n := c.toNat
  c.isAlphanum ||
    (n == 0xAA || n == 0xB2 || n == 0xB3 || n == 0xB5 || n == 0xB9 || n == 0xBA) ||
    (decide (0xBC ≤ n) && decide (n ≤ 0xBE)) ||
    (decide (0xC0 ≤ n) && decide (n ≤ 0xFF) && n != 0xD7 && n != 0xF7)

/-- `DatabaseManager._is_safe_identifier` (`database.py` lines 119-123):
returns `False` for `None` and for the empty string (`if not name`), else
`all(c.isalnum() or c == \x27_\x27 for c in name)`. -/
def isSafeIdentifier : Option String → Bool
  | none => false
  | some s => if s.isEmpty then false else s.data.all (fun c => pyIsAlnum c || c == '_')

/-- Python truthiness of an optional string: `None` and `""` are falsy. -/
def truthyStr : Option String → Bool
  | none => false
  | some s => !s.isEmpty

/-- Python truthiness of an optional list: `None` and `[]` are falsy. -/
def truthyList {α : Type} : Option (List α) → Bool
  | none => false
  | some l => !l.isEmpty

/-- Substring containment on strings, expressed as list-infix containment on
the underlying character lists. -/
def strContains (s pat : String) : Prop := pat.data <:+: s.data

instance (s pat : String) : Decidable (strContains s pat) := by
  unfold strContains
  infer_instance

/-- Values of a parsed JSON `vector_query: List[float]` as the search request
receives them.  Finite values are modelled at the integral floats only (the
only finite values this development evaluates on); `nan`, `inf` and `ninf`
model the IEEE specials that Python float parsing admits. -/
inductive PyFloat where
  | num : Int → PyFloat
  | nan : PyFloat
  | inf : PyFloat
  | ninf : PyFloat
deriving DecidableEq

/-- Python `str(x)` for a float `x`, on the modelled values: `str(1.0)` is
`"1.0"`, `str(float("nan"))` is `"nan"`, `str(float("inf"))` is `"inf"`,
`str(float("-inf"))` is `"-inf"`. -/
def PyFloat.toPyStr : PyFloat → String
  | .num i => toString i ++ ".0"
  | .nan => "nan"
  | .inf => "inf"
  | .ninf => "-inf"

/-- The vector literal built by `search_table` (`database.py` line 1087):
`"[" + ",".join(str(x) for x in vector_query) + "]"`. -/
def vectorLiteral (v : List PyFloat) : String :=
  "[" ++ String.intercalate "," (v.map PyFloat.toPyStr) ++ "]"

/-- Arguments of `DatabaseManager.search_table` (`database.py` lines
1046-1058), with the defaults of the `SearchRequest` model (`api.py` lines
20-31).  Note that `SearchRequest.limit` carries no upper-bound constraint. -/
structure SearchArgs where
  schema : String
  table : String
  text_query : Option String := none
  search_column : Option String := none
  vector_column : Option String := none
  vector_query : Option (List PyFloat) := none
  limit : Int := 10
  metric : String := "cosine"
  sort_by : Option String := none
  sort_order : String := "asc"
  collection_id : Option String := none

/-- The quoted vector literal with its cast, exactly as interpolated into
the SQL text by `search_table`. -/
def quotedVectorCast (lit : String) : String :=
  "\x27" ++ lit ++ "\x27::vector"

/-- The pgvector distance operator selected by the metric string
(`database.py` lines 1089-1103): `cosine` selects `<=>`, `ip` selects
`<#>`, every other metric string selects `<->` (the `else` branch). -/
def distanceOpStr (metric : String) : String :=
  if metric == "cosine" then "<=>" else if metric == "ip" then "<#>" else "<->"

/-- The raw pgvector distance expression used both inside the similarity
expression and as the ORDER BY key (`database.py` lines 1092-1103 and
1131-1135). -/
def rawDistanceExprStr (metric vcol lit : String) : String :=
  "\"" ++ vcol ++ "\" " ++ distanceOpStr metric ++ " " ++ quotedVectorCast lit

/-- Opening text of the `similarity_score` expression, by metric. -/
def similarityPre (metric : String) : String :=
  if metric == "cosine" then "(1 - ("
  else if metric == "ip" then "(-("
  else "(1 / (1 + ("

/-- Closing text of the `similarity_score` expression, by metric. -/
def similarityPost (metric : String) : String :=
  if metric == "cosine" then "))" else if metric == "ip" then "))" else ")))"

/-- The derived `similarity_score` SQL expression (`database.py` lines
1089-1103): cosine gives `1 - distance`, ip negates the raw operator value,
l2 (the `else` branch) gives `1 / (1 + distance)`. -/
def similarityExprStr (metric vcol lit : String) : String :=
  similarityPre metric ++ rawDistanceExprStr metric vcol lit ++ similarityPost metric

/-- The ORDER BY clause of a vector search (`database.py` lines 1128-1135):
the raw distance operator value ascending, with no direction keyword. -/
def vectorOrderByStr (metric vcol lit : String) : String :=
  "ORDER BY (" ++ rawDistanceExprStr metric vcol lit ++ ")"

/-- Query construction of `DatabaseManager.search_table` (`database.py`
lines 1076-1153) up to the main fetch: produces the SQL text and the ordered
bound-parameter list, or the message of the exception raised by identifier
validation.  Vector search is active when both `vector_query` and
`vector_column` are truthy; text search when both `text_query` and
`search_column` are truthy.  The only bound parameters are the collection id
and the ILIKE pattern; the vector literal and the limit are interpolated
into the SQL text.  The count query issued after the fetch reuses the same
unvalidated schema and table and is not needed by any claim, so it is not
modelled. -/
def buildSearchQuery (a : SearchArgs) : Except String (String × List String) :=
  let isVector := truthyList a.vector_query && truthyStr a.vector_column
  let isText := truthyStr a.text_query && truthyStr a.search_column
  if isVector && !isSafeIdentifier a.vector_column then
    Except.error ("Invalid vector column: " ++ a.vector_column.getD "")
  else if isText && !isSafeIdentifier a.search_column then
    Except.error ("Invalid search column: " ++ a.search_column.getD "")
  else if !isVector && truthyStr a.sort_by && !isSafeIdentifier a.sort_by then
    Except.error ("Invalid sort column: " ++ a.sort_by.getD "")
  else
    let lit := vectorLiteral (a.vector_query.getD [])
    let vcol := a.vector_column.getD ""
    let base :=
      if isVector then
        "SELECT *, " ++ similarityExprStr a.metric vcol lit ++
          " AS similarity_score FROM \"" ++ a.schema ++ "\".\"" ++ a.table ++ "\""
      else
        "SELECT * FROM \"" ++ a.schema ++ "\".\"" ++ a.table ++ "\""
    let conds1 : List String :=
      if truthyStr a.collection_id then ["collection_id = $1"] else []
    let params1 : List String :=
      if truthyStr a.collection_id then [a.collection_id.getD ""] else []
    let conds : List String :=
      if isText then
        conds1 ++
          ["\"" ++ a.search_column.getD "" ++ "\"::text ILIKE $" ++
            toString (params1.length + 1)]
      else conds1
    let params : List String :=
      if isText then params1 ++ ["%" ++ a.text_query.getD "" ++ "%"] else params1
    let orderBy :=
      if isVector then vectorOrderByStr a.metric vcol lit
      else if truthyStr a.sort_by then
        "ORDER BY \"" ++ a.sort_by.getD "" ++ "\" " ++
          (if a.sort_order.toLower == "desc" then "DESC" else "ASC")
      else ""
    let mid :=
      if !conds.isEmpty then " WHERE " ++ String.intercalate " AND " conds ++ " "
      else " "
    let query := base ++ mid ++ orderBy ++ " LIMIT " ++ toString a.limit
    Except.ok (query, params)

/-- The SQL text of a successful build, or the empty string on error. -/
def sqlOf (r : Except String (String × List String)) : String :=
  match r with
  | .ok (s, _) => s
  | .error _ => ""

/-- The bound-parameter list of a successful build, or the empty list. -/
def paramsOf (r : Except String (String × List String)) : List String :=
  match r with
  | .ok (_, p) => p
  | .error _ => []

/-- A bound query parameter as passed to the driver. -/
inductive SqlParam where
  | str : String → SqlParam
  | int : Int → SqlParam
deriving DecidableEq

/-- Arguments of `DatabaseManager.get_table_data` (`database.py` lines
732-741). -/
structure TableDataArgs where
  schema : String
  table : String
  limit : Int := 20
  offset : Int := 0
  sort_by : Option String := none
  sort_order : String := "asc"
  collection_id : Option String := none

/-- The count query of `get_table_data` (`database.py` line 758): same
schema, table and WHERE clause as the data query, built before the sort
column is validated. -/
def tableDataCountQuery (a : TableDataArgs) : String :=
  "SELECT COUNT(*) FROM \"" ++ a.schema ++ "\".\"" ++ a.table ++ "\"" ++
    (if truthyStr a.collection_id then " WHERE collection_id = $1" else "")

/-- Query construction of `get_table_data` (`database.py` lines 746-781):
returns the SQL texts in the order the source constructs and sends them, the
bound parameters of the data query, and the message of the exception raised
by sort-column validation if any.  The count query is constructed and sent
before `sort_by` is validated, so on an invalid sort column the trace holds
the count query alone and the error.  The limit and offset of the data query
are bound parameters (unlike in `search_table`). -/
def buildTableDataQueries (a : TableDataArgs) :
    List String × List SqlParam × Option String :=
  let whereClause := if truthyStr a.collection_id then " WHERE collection_id = $1" else ""
  let queryParams : List SqlParam :=
    if truthyStr a.collection_id then [SqlParam.str (a.collection_id.getD "")] else []
  let countQuery := tableDataCountQuery a
  if truthyStr a.sort_by && !isSafeIdentifier a.sort_by then
    ([countQuery], [], some ("Invalid sort column: " ++ a.sort_by.getD ""))
  else
    let orderBy :=
      if truthyStr a.sort_by then
        " ORDER BY \"" ++ a.sort_by.getD "" ++ "\" " ++
          (if a.sort_order.toLower == "desc" then "DESC" else "ASC")
      else ""
    let base := "SELECT * FROM \"" ++ a.schema ++ "\".\"" ++ a.table ++ "\""
    let dataQuery :=
      if !queryParams.isEmpty then
        base ++ whereClause ++ orderBy ++ " LIMIT $" ++ toString (queryParams.length + 1) ++
          " OFFSET $" ++ toString (queryParams.length + 2)
      else
        base ++ orderBy ++ " LIMIT $1 OFFSET $2"
    ([countQuery, dataQuery],
     queryParams ++ [SqlParam.int a.limit, SqlParam.int a.offset], none)

/-- A row of the target table, reduced to the fields the pagination claims
observe: the optional tenant collection id and an abstract payload that
tells rows apart. -/
structure Row where
  collection_id : Option String
  payload : Nat
deriving DecidableEq

/-- The WHERE clause `collection_id = $1` of `get_table_data`, as a row
predicate; with no truthy collection filter every row matches. -/
def rowMatches (cid : Option String) (r : Row) : Bool :=
  if truthyStr cid then r.collection_id == some (cid.getD "") else true

/-- Result shape of `get_table_data` (`database.py` lines 798-805). -/
structure TableDataResult where
  data : List Row
  total_count : Int
  page_size : Int
  offset : Int
  has_next : Bool
  has_previous : Bool
deriving DecidableEq

/-- Semantics of `get_table_data` (`database.py` lines 742-805) against a
table state, given the standard meaning of the generated SQL: `COUNT(*)`
under the WHERE clause is the length of the filtered row list, and the data
query returns the `LIMIT limit OFFSET offset` window of the filtered rows
(the model keeps table order; the claims proved here do not depend on the
ORDER BY permutation).  Callers reach this code with nonnegative limit and
offset (FastAPI enforces `page >= 1` and `1 <= page_size <= 1000`).
A failed sort-column validation aborts with the builder error. -/
def getTableData (tbl : List Row) (a : TableDataArgs) : Except String TableDataResult :=
  match (buildTableDataQueries a).2.2 with
  | some e => Except.error e
  | none =>
    let filtered := tbl.filter (rowMatches a.collection_id)
    let total : Int := filtered.length
    Except.ok
      { data := (filtered.drop a.offset.toNat).take a.limit.toNat
        total_count := total
        page_size := a.limit
        offset := a.offset
        has_next := decide (a.offset + a.limit < total)
        has_previous := decide (a.offset > 0) }

/-- The HTTP endpoint wrapper `get_table_data` (`api.py` lines 153-180):
FastAPI validates `page` with `ge=1` and `page_size` with `ge=1, le=1000`,
rejecting out-of-range values with a 422 validation error before the handler
runs; the handler then calls the manager with `limit=page_size` and
`offset=(page-1)*page_size`. -/
def apiGetTableData (tbl : List Row) (schema table : String) (page pageSize : Int)
    (sortBy : Option String) (sortOrder : String) (collectionId : Option String) :
    Except String TableDataResult :=
  if page < 1 || pageSize < 1 || pageSize > 1000 then
    Except.error "422 request validation error"
  else
    getTableData tbl
      { schema := schema, table := table, limit := pageSize,
        offset := (page - 1) * pageSize, sort_by := sortBy,
        sort_order := sortOrder, collection_id := collectionId }

/-- State of a `DatabaseManager` instance (`database.py` lines 19-35),
reduced to the observables the cache claims need.  The asyncpg pool handle
is modelled by the `is_connected` observable `pool_open` (a pool exists and
is not marked closed).  Discovery payloads are abstract strings; cache
timestamps and TTLs are in seconds. -/
structure DBManagerState where
  pool_open : Bool
  connection_string : Option String
  tables_cache : Option (List String × Nat)
  metadata_cache : List (String × (String × Nat))
  tables_cache_ttl : Nat := 60
  metadata_cache_ttl : Nat := 30
  last_activity : Nat := 0
deriving DecidableEq

/-- `DatabaseManager._cleanup_connection` (`database.py` lines 95-104):
closes the pool and clears the pool handle and the connection string.  The
two metadata caches are not touched. -/
def cleanupConnection (m : DBManagerState) : DBManagerState :=
  { m with pool_open := false, connection_string := none }

/-- `DatabaseManager.disconnect` (`database.py` lines 106-109): runs
`_cleanup_connection` under the connection lock. -/
def managerDisconnect (m : DBManagerState) : DBManagerState :=
  cleanupConnection m

/-- `DatabaseManager.is_connected` (`database.py` lines 111-113). -/
def managerIsConnected (m : DBManagerState) : Bool :=
  m.pool_open

/-- `DatabaseManager.connect` (`database.py` lines 48-93): cleans up any
existing pool, creates a new pool and probes it.  The outcome of the
external pool creation and probe is the parameter `poolOk`; on failure the
partial state is cleaned up and `false` returned.  The caches carry over
unchanged in both cases. -/
def managerConnect (m : DBManagerState) (dsn : String) (poolOk : Bool) (now : Nat) :
    DBManagerState × Bool :=
  let m1 := cleanupConnection m
  if poolOk then
    ({ m1 with pool_open := true, connection_string := some dsn, last_activity := now }, true)
  else
    (cleanupConnection m1, false)

/-- `DatabaseManager.get_tables_with_vectors` (`database.py` lines 198-206,
400-402): raises when not connected; serves the cached listing while its
age is strictly below the TTL; otherwise queries the target (whose current
listing is the parameter `dbResult`) and stores it with a fresh
timestamp. -/
def getTablesWithVectors (m : DBManagerState) (now : Nat) (dbResult : List String) :
    Except String (List String × DBManagerState) :=
  if !managerIsConnected m then
    Except.error "No database connection available"
  else
    match m.tables_cache with
    | some (data, ts) =>
      if now - ts < m.tables_cache_ttl then Except.ok (data, m)
      else Except.ok (dbResult, { m with tables_cache := some (dbResult, now) })
    | none => Except.ok (dbResult, { m with tables_cache := some (dbResult, now) })

/-- A live `DatabaseManager` as the session registry sees it: an identity
(so theorems can state that the very same manager object is returned), its
`is_connected` observable, and whether its liveness probe succeeds. -/
structure Mgr where
  mid : Nat
  connected : Bool
  test_ok : Bool
deriving DecidableEq

/-- Result of `DatabaseManager.test_connection` (`database.py` lines
150-181), reduced to the `connected` flag the registry code reads.  The
method catches every exception (including timeouts) and returns a dict, so
it never raises: a dead or failing connection yields `connected = false`
as a normal return value. -/
structure TestResult where
  connected : Bool
deriving DecidableEq

/-- `test_connection` as a total function: `if not self.is_connected():
return ... connected False`; otherwise the probe outcome `test_ok`. -/
def testConnection (m : Mgr) : TestResult :=
  if !m.connected then { connected := false } else { connected := m.test_ok }

/-- A row of the `db_look_sessions` metadata table (`session_manager.py`
lines 58-67), reduced to the fields `connect_session` reads. -/
structure SessionRec where
  user_id : String
  db_url : String
deriving DecidableEq

/-- Shared state of the session module (`session_manager.py` lines 13-15):
the metadata-store session rows and the module-level `_active_sessions`
dict.  Both are keyed by the session id alone; `next_mid` numbers freshly
constructed managers. -/
structure SysState where
  sessions : List (String × SessionRec)
  active : List (String × Mgr)
  next_mid : Nat
deriving DecidableEq

/-- Insert or overwrite a key in the `_active_sessions` dict. -/
def insertActive (l : List (String × Mgr)) (k : String) (v : Mgr) : List (String × Mgr) :=
  match l with
  | [] => [(k, v)]
  | (k2, v2) :: rest =>
    if k2 == k then (k, v) :: rest else (k2, v2) :: insertActive rest k v

/-- Remove a key from the `_active_sessions` dict (`.pop(session_id, None)`). -/
def removeActive (l : List (String × Mgr)) (k : String) : List (String × Mgr) :=
  l.filter (fun p => p.1 != k)

/-- Errors surfaced by the session module, by source-line provenance:
`notFound` for the missing-record `ValueError` (`session_manager.py` line
149) and `connectError` for the `ValueError` the connect path wraps every
failure in (lines 170, 176, 184). -/
inductive SessionErr where
  | notFound : String → SessionErr
  | connectError : String → SessionErr
deriving DecidableEq

/-- The build-and-publish tail of `connect_session` (`session_manager.py`
lines 163-200): construct a fresh manager, connect it (external outcome
`connectOk`), on failure dispose it and raise; otherwise run
`test_connection` and check the returned `connected` flag, on failure
dispose and raise; only on success publish into `_active_sessions` and
return the manager.  A disposed manager is never published. -/
def connectFresh (st : SysState) (sid : String) (connectOk newTestOk : Bool) :
    Except SessionErr (Mgr × SysState) :=
  let mgr : Mgr := { mid := st.next_mid, connected := connectOk, test_ok := newTestOk }
  if !connectOk then
    Except.error (.connectError ("Failed to connect to database for session " ++ sid))
  else if !(testConnection mgr).connected then
    Except.error (.connectError ("Database connection test failed for session " ++ sid))
  else
    Except.ok (mgr,
      { st with active := insertActive st.active sid mgr, next_mid := st.next_mid + 1 })

/-- `connect_session` (`session_manager.py` lines 144-200): verifies the
session row exists for this user; under the lock, if an already-registered
manager reports `is_connected()`, calls its `test_connection()` inside a
try block whose except branch would dispose it — but `test_connection`
never raises, so the returned status is discarded and the existing manager
is returned unconditionally; otherwise the fresh-build tail runs. -/
def connectSession (st : SysState) (uid sid : String) (connectOk newTestOk : Bool) :
    Except SessionErr (Mgr × SysState) :=
  match st.sessions.lookup sid with
  | none => Except.error (.notFound sid)
  | some rec =>
    if rec.user_id != uid then Except.error (.notFound sid)
    else
      match st.active.lookup sid with
      | some ex =>
        if ex.connected then Except.ok (ex, st)
        else connectFresh st sid connectOk newTestOk
      | none => connectFresh st sid connectOk newTestOk

/-- `get_session_manager` (`session_manager.py` lines 212-234): looks up
`_active_sessions` by the session id alone; a registered manager reporting
`is_connected()` is returned at once — `test_connection` is called but
cannot raise, and the requesting user id is not compared against the
session owner on this path; a registered but disconnected manager is
popped; creation falls through to `connect_session`. -/
def getSessionManager (st : SysState) (uid sid : String) (connectOk newTestOk : Bool) :
    Except SessionErr (Mgr × SysState) :=
  match st.active.lookup sid with
  | some mgr =>
    if mgr.connected then Except.ok (mgr, st)
    else connectSession { st with active := removeActive st.active sid } uid sid
      connectOk newTestOk
  | none => connectSession st uid sid connectOk newTestOk

/-- A registered manager as the cleanup sweep observes it
(`session_manager.py` lines 247-273): the `is_connected` flag, whether the
5-second `asyncio.wait_for` around `test_connection` times out (the only
way the removal branches can trigger, since `test_connection` itself never
raises), and the idle timestamp that `update_activity` maintains. -/
structure SweepMgr where
  connected : Bool
  test_times_out : Bool
  last_activity : Nat
deriving DecidableEq

/-- `cleanup_inactive` (`session_manager.py` lines 237-290): computes
`cutoff_time = now - max_idle_minutes` — a value the rest of the function
never reads — then walks the registered managers and removes exactly those
that are not connected or whose wrapped `test_connection` call times out.
`last_activity` is never consulted. -/
def cleanupInactive (now : Nat) (maxIdleMinutes : Nat)
    (reg : List (String × SweepMgr)) : List (String × SweepMgr) :=
  let _cutoff_time := now - maxIdleMinutes * 60
  reg.filter (fun p => p.2.connected && !p.2.test_times_out)

/-- Semantic reading of the `similarity_score` expressions of
`similarityExprStr` as functions of the raw distance-operator value `d`
(`database.py` lines 1089-1103): cosine gives `1 - d`, ip negates the raw
`<#>` value, every other metric string (the l2 branch) gives
`1 / (1 + d)`. -/
def similarityScore (metric : String) (d : ℚ) : ℚ :=
  if metric == "cosine" then 1 - d
  else if metric == "ip" then -d
  else 1 / (1 + d)

/-- A vector-search request with a well-formed two-element query vector, as
`search_table` receives it from the search endpoint. -/
def vecSearchArgs : SearchArgs :=
  { schema := "public", table := "items", vector_column := some "embedding",
    vector_query := some [PyFloat.num 1, PyFloat.num 2] }

/-- The same request with a query vector containing NaN and Infinity, which
pydantic float parsing accepts. -/
def nanSearchArgs : SearchArgs :=
  { vecSearchArgs with vector_query := some [PyFloat.nan, PyFloat.inf] }

/-- A paginated-read request whose table name fails the identifier check. -/
def badTableArgs : TableDataArgs :=
  { schema := "public", table := "docs\" ; DROP TABLE x ; --" }

/-- A search request whose schema name fails the identifier check. -/
def badSchemaSearchArgs : SearchArgs :=
  { schema := "bad schema\"", table := "docs" }

/-- A search request with a caller-chosen limit far above every configured
maximum in the repository. -/
def bigLimitSearchArgs : SearchArgs :=
  { schema := "public", table := "docs", limit := 1000000 }

/-- A table of 48 rows of which exactly 45 carry the tenant collection id
`abc`, for the pagination scenario. -/
def c5Table : List Row :=
  ((List.range 45).map (fun i => { collection_id := some "abc", payload := i })) ++
    ((List.range 3).map (fun i => { collection_id := some "zzz", payload := 100 + i }))

/-- The pagination scenario arguments: limit 20, offset 40, tenant filter
`abc`. -/
def c5Args : TableDataArgs :=
  { schema := "public", table := "docs", limit := 20, offset := 40,
    collection_id := some "abc" }

/-- A connected manager holding fresh entries in both discovery caches. -/
def staleCacheMgr : DBManagerState :=
  { pool_open := true, connection_string := some "postgresql://old-target",
    tables_cache := some (["public.docs_old"], 0),
    metadata_cache := [("public.docs", ("cached-metadata", 0))] }

/-- A registered manager that reports `is_connected()` but whose liveness
probe reports failure. -/
def failingTestMgr : Mgr :=
  { mid := 7, connected := true, test_ok := false }

/-- Registry state holding `failingTestMgr` for a session owned by
`alice`. -/
def c8State : SysState :=
  { sessions := [("sess-1", { user_id := "alice", db_url := "postgresql://target" })],
    active := [("sess-1", failingTestMgr)], next_mid := 8 }

/-- Registry state with no live manager for the session owned by `alice`. -/
def c8FreshState : SysState :=
  { sessions := [("sess-1", { user_id := "alice", db_url := "postgresql://target" })],
    active := [], next_mid := 3 }

/-- A registered manager that has been idle since time 0 and whose health
check passes. -/
def idleHealthyMgr : SweepMgr :=
  { connected := true, test_times_out := false, last_activity := 0 }

/-- A healthy live manager for the ownership scenario. -/
def liveMgr : Mgr :=
  { mid := 0, connected := true, test_ok := true }

/-- Registry state in which the session `sess-1` belongs to `alice` in the
metadata store and its live manager `liveMgr` is registered under the
session id alone. -/
def ownerState : SysState :=
  { sessions := [("sess-1", { user_id := "alice", db_url := "postgresql://target" })],
    active := [("sess-1", liveMgr)], next_mid := 1 }

/-- A paginated-read request with an unsafe sort column. -/
def badSortArgs : TableDataArgs :=
  { schema := "public", table := "docs", sort_by := some "evil; --" }

/-- A vector-search request whose vector column fails the identifier
check. -/
def badVcolSearchArgs : SearchArgs :=
  { schema := "public", table := "docs", vector_column := some "emb col",
    vector_query := some [PyFloat.num 1] }

/-- A text-search request whose search column fails the identifier check. -/
def badScolSearchArgs : SearchArgs :=
  { schema := "public", table := "docs", text_query := some "foo",
    search_column := some "bad col" }

/-- A string built by concatenating a prefix part, the pattern and a suffix
part contains the pattern. -/
theorem strContains_of_parts (x pat y s : String) (h : s = x ++ pat ++ y) :
    strContains s pat := by
  subst h
  unfold strContains
  refine ⟨x.data, y.data, ?_⟩
  simp

/-- A string whose final segment is the pattern contains the pattern. -/
theorem strContains_here (x pat : String) : strContains (x ++ pat) pat := by
  unfold strContains
  exact ⟨x.data, [], by simp⟩

/-- Containment is preserved by appending on the right. -/
theorem strContains.appR {s pat : String} (h : strContains s pat) (y : String) :
    strContains (s ++ y) pat := by
  unfold strContains at h ⊢
  obtain ⟨u, v, huv⟩ := h
  refine ⟨u, v ++ y.data, ?_⟩
  simp [← huv]

/-- Containment is preserved by appending on the left. -/
theorem strContains.appL {s pat : String} (h : strContains s pat) (x : String) :
    strContains (x ++ s) pat := by
  unfold strContains at h ⊢
  obtain ⟨u, v, huv⟩ := h
  refine ⟨x.data ++ u, v, ?_⟩
  simp [← huv]

/-- A string ending in two concatenated segments contains their
concatenation. -/
theorem strContains_tail2 (x p1 p2 : String) :
    strContains ((x ++ p1) ++ p2) (p1 ++ p2) := by
  unfold strContains
  exact ⟨x.data, [], by simp⟩

/-- On ASCII code points the Python alphanumeric test coincides with the
ASCII test `[A-Za-z0-9]`. -/
theorem pyIsAlnum_ascii (c : Char) (h : c.toNat < 128) :
    pyIsAlnum c = c.isAlphanum := by
  unfold pyIsAlnum
  have h1 : (c.toNat == 0xAA) = false := by rw [beq_eq_false_iff_ne]; omega
  have h2 : (c.toNat == 0xB2) = false := by rw [beq_eq_false_iff_ne]; omega
  have h3 : (c.toNat == 0xB3) = false := by rw [beq_eq_false_iff_ne]; omega
  have h4 : (c.toNat == 0xB5) = false := by rw [beq_eq_false_iff_ne]; omega
  have h5 : (c.toNat == 0xB9) = false := by rw [beq_eq_false_iff_ne]; omega
  have h6 : (c.toNat == 0xBA) = false := by rw [beq_eq_false_iff_ne]; omega
  have h7 : decide (0xBC ≤ c.toNat) = false := by
    rw [decide_eq_false_iff_not]; omega
  have h8 : decide (0xC0 ≤ c.toNat) = false := by
    rw [decide_eq_false_iff_not]; omega
  simp only [h1, h2, h3, h4, h5, h6, h7, h8, Bool.false_or, Bool.or_false,
    Bool.false_and, Bool.and_false]

/-- C3 counterexample: the single-character string given by U+00E9 contains
a character outside the ASCII set, yet `_is_safe_identifier` accepts it,
because Python `str.isalnum` is Unicode-aware. -/
theorem safe_identifier_unicode_counterexample :
    isSafeIdentifier (some "é") = true ∧
    ('é'.isAlphanum || 'é' == '_') = false ∧
    "é".data = ['é'] := by
  decide

/-- C3 (amended): `_is_safe_identifier` returns safe iff the candidate is
non-empty and every character is Python-alphanumeric or underscore; on
strings of ASCII characters this is exactly non-emptiness plus membership
of every character in `[A-Za-z0-9_]`, but non-ASCII Unicode alphanumerics
are also accepted. -/
theorem safe_identifier_ascii_charset (s : String)
    (hascii : ∀ c ∈ s.data, c.toNat < 128) :
    isSafeIdentifier (some s) = true ↔
      (s ≠ "" ∧ ∀ c ∈ s.data, (c.isAlphanum || c == '_') = true) := by
  simp only [isSafeIdentifier]
  by_cases he : s.isEmpty
  · rw [if_pos he]
    simp only [Bool.false_eq_true, false_iff, not_and]
    rintro hne -
    exact hne ((String.isEmpty_iff s).mp he)
  · rw [if_neg he, List.all_eq_true]
    constructor
    · intro hall
      refine ⟨fun hs => he ((String.isEmpty_iff s).mpr hs), fun c hc => ?_⟩
      have hmem := hall c hc
      rwa [pyIsAlnum_ascii c (hascii c hc)] at hmem
    · rintro ⟨-, hall⟩ c hc
      rw [pyIsAlnum_ascii c (hascii c hc)]
      exact hall c hc

/-- C3 witness: the amended characterization evaluated at the ASCII string
of `user_id9`. -/
theorem safe_identifier_ascii_charset_witness :
    isSafeIdentifier (some "user_id9") = true ↔
      ("user_id9" ≠ "" ∧ ∀ c ∈ "user_id9".data, (c.isAlphanum || c == '_') = true) :=
  safe_identifier_ascii_charset "user_id9" (by decide)

/-- C4: the derived similarity score is `1 - d` for cosine, the negation of
the raw inner-product operator value for ip, and `1 / (1 + d)` for l2; each
is strictly decreasing in the raw distance-operator value (for l2 on the
nonnegative distances the operator produces), so larger scores mean more
similar under every metric; and the generated vector-search SQL orders rows
by the bare raw-distance expression ascending — the concrete query shows
the ORDER BY key followed directly by LIMIT, with no direction keyword. -/
theorem similarity_score_antitone_in_distance :
    (∀ d : ℚ, similarityScore "cosine" d = 1 - d ∧
       similarityScore "ip" d = -d ∧ similarityScore "l2" d = 1 / (1 + d)) ∧
    (∀ d1 d2 : ℚ, d1 < d2 →
       similarityScore "cosine" d2 < similarityScore "cosine" d1) ∧
    (∀ d1 d2 : ℚ, d1 < d2 → similarityScore "ip" d2 < similarityScore "ip" d1) ∧
    (∀ d1 d2 : ℚ, 0 ≤ d1 → d1 < d2 →
       similarityScore "l2" d2 < similarityScore "l2" d1) ∧
    strContains (sqlOf (buildSearchQuery vecSearchArgs))
      (vectorOrderByStr "cosine" "embedding" "[1.0,2.0]" ++ " LIMIT 10") := by
  refine ⟨fun d => ⟨rfl, rfl, rfl⟩, fun d1 d2 h => ?_, fun d1 d2 h => ?_,
    fun d1 d2 h0 h => ?_, ?_⟩
  · show (1 : ℚ) - d2 < 1 - d1
    linarith
  · show -d2 < -d1
    linarith
  · show (1 : ℚ) / (1 + d2) < 1 / (1 + d1)
    apply one_div_lt_one_div_of_lt <;> linarith
  · decide

/-- C4 witness: the three strict decreases evaluated at raw distances 0 and
1. -/
theorem similarity_score_antitone_witness :
    similarityScore "cosine" 1 < similarityScore "cosine" 0 ∧
    similarityScore "ip" 1 < similarityScore "ip" 0 ∧
    similarityScore "l2" 1 < similarityScore "l2" 0 :=
  ⟨similarity_score_antitone_in_distance.2.1 0 1 (by norm_num),
   similarity_score_antitone_in_distance.2.2.1 0 1 (by norm_num),
   similarity_score_antitone_in_distance.2.2.2.1 0 1 (by norm_num) (by norm_num)⟩

/-- When the sort column is absent or passes validation, `get_table_data`
raises no validation error. -/
theorem buildTableDataQueries_no_error (a : TableDataArgs)
    (hsort : truthyStr a.sort_by = true → isSafeIdentifier a.sort_by = true) :
    (buildTableDataQueries a).2.2 = none := by
  have hcond : (truthyStr a.sort_by && !isSafeIdentifier a.sort_by) = false := by
    cases hb : truthyStr a.sort_by with
    | false => simp
    | true => simp [hsort hb]
  unfold buildTableDataQueries
  simp only [hcond, Bool.false_eq_true, if_false]

/-- C5: for every paginated read with a valid (or absent) sort column, the
total count is computed over exactly the rows matching the same tenant
filter as the data query, `has_next` is `offset + limit < total_count`,
`has_previous` is `offset > 0`, and the returned page is the
limit-offset window of the filtered rows; in the scenario of a table with
45 matching rows, limit 20 and offset 40, the read returns 5 rows with no
next page and a previous page. -/
theorem table_data_pagination_correct :
    (∀ (tbl : List Row) (a : TableDataArgs),
       (truthyStr a.sort_by = true → isSafeIdentifier a.sort_by = true) →
       getTableData tbl a = Except.ok
         { data := ((tbl.filter (rowMatches a.collection_id)).drop
             a.offset.toNat).take a.limit.toNat
           total_count := ((tbl.filter (rowMatches a.collection_id)).length : Int)
           page_size := a.limit
           offset := a.offset
           has_next := decide (a.offset + a.limit <
             ((tbl.filter (rowMatches a.collection_id)).length : Int))
           has_previous := decide (a.offset > 0) } ∧
       (∀ res, getTableData tbl a = Except.ok res →
         res.data.length = min a.limit.toNat
           ((tbl.filter (rowMatches a.collection_id)).length - a.offset.toNat))) ∧
    ((c5Table.filter (rowMatches (some "abc"))).length = 45 ∧
     (getTableData c5Table c5Args).toOption.map
       (fun r => (r.data.length, r.has_next, r.has_previous)) =
         some (5, false, true)) := by
  constructor
  · intro tbl a hsort
    have hnone := buildTableDataQueries_no_error a hsort
    have hok : getTableData tbl a = Except.ok
        { data := ((tbl.filter (rowMatches a.collection_id)).drop
            a.offset.toNat).take a.limit.toNat
          total_count := ((tbl.filter (rowMatches a.collection_id)).length : Int)
          page_size := a.limit
          offset := a.offset
          has_next := decide (a.offset + a.limit <
            ((tbl.filter (rowMatches a.collection_id)).length : Int))
          has_previous := decide (a.offset > 0) } := by
      unfold getTableData
      rw [hnone]
    refine ⟨hok, fun res hres => ?_⟩
    rw [hok] at hres
    obtain rfl := (Except.ok.inj hres).symm
    simp [List.length_take, List.length_drop]
  · exact ⟨by decide, by decide⟩

/-- C5 witness: the general pagination theorem evaluated at the scenario
table and arguments. -/
theorem table_data_pagination_correct_witness :
    getTableData c5Table c5Args = Except.ok
      { data := ((c5Table.filter (rowMatches c5Args.collection_id)).drop
          c5Args.offset.toNat).take c5Args.limit.toNat
        total_count := ((c5Table.filter (rowMatches c5Args.collection_id)).length : Int)
        page_size := c5Args.limit
        offset := c5Args.offset
        has_next := decide (c5Args.offset + c5Args.limit <
          ((c5Table.filter (rowMatches c5Args.collection_id)).length : Int))
        has_previous := decide (c5Args.offset > 0) } :=
  (table_data_pagination_correct.1 c5Table c5Args (by decide)).1

/-- C1 counterexample: for the concrete vector search over vector
`[1.0, 2.0]`, `search_table` produces SQL text that embeds the serialized
vector values between single quotes (string concatenation, not a bound
parameter) and passes an empty bound-parameter list; and the vector
`[nan, inf]` is accepted without any validation failure, its special values
serialized straight into the SQL text. -/
theorem search_vector_literal_embedded_counterexample :
    buildSearchQuery vecSearchArgs = Except.ok
      ("SELECT *, (1 - (\"embedding\" <=> \x27[1.0,2.0]\x27::vector)) AS similarity_score FROM \"public\".\"items\" ORDER BY (\"embedding\" <=> \x27[1.0,2.0]\x27::vector) LIMIT 10",
       []) ∧
    strContains (sqlOf (buildSearchQuery vecSearchArgs))
      (quotedVectorCast (vectorLiteral [PyFloat.num 1, PyFloat.num 2])) ∧
    buildSearchQuery nanSearchArgs = Except.ok
      ("SELECT *, (1 - (\"embedding\" <=> \x27[nan,inf]\x27::vector)) AS similarity_score FROM \"public\".\"items\" ORDER BY (\"embedding\" <=> \x27[nan,inf]\x27::vector) LIMIT 10",
       []) := by
  refine ⟨rfl, by decide, rfl⟩

/-- C1 (amended): for every vector similarity search whose vector column
passes validation (and whose text-search column, when text search is also
active, passes validation), query construction succeeds; the bound
parameters are exactly the truthy collection id and the truthy ILIKE
pattern — the vector never appears among them — and the SQL text contains
the single-quoted serialized vector literal cast to the vector type.  No
check rejects NaN or Infinity values before serialization. -/
theorem search_vector_literal_in_sql_not_params (a : SearchArgs)
    (hv : truthyList a.vector_query = true)
    (hc : truthyStr a.vector_column = true)
    (hsafe : isSafeIdentifier a.vector_column = true)
    (htext : (truthyStr a.text_query && truthyStr a.search_column) = true →
      isSafeIdentifier a.search_column = true) :
    ∃ sql, buildSearchQuery a = Except.ok (sql,
        (if truthyStr a.collection_id then [a.collection_id.getD ""] else []) ++
          (if truthyStr a.text_query && truthyStr a.search_column then
            ["%" ++ a.text_query.getD "" ++ "%"] else [])) ∧
      strContains sql (quotedVectorCast (vectorLiteral (a.vector_query.getD []))) := by
  by_cases ht : (truthyStr a.text_query && truthyStr a.search_column) = true
  · have hst := htext ht
    simp only [buildSearchQuery, hv, hc, hsafe, ht, hst, Bool.and_self,
      Bool.not_true, Bool.and_false, Bool.false_eq_true, if_false, Bool.not_false,
      Bool.false_and, if_true]
    refine ⟨_, rfl, ?_⟩
    exact (((((((((((strContains_here _
      (quotedVectorCast (vectorLiteral (a.vector_query.getD [])))).appL
        (similarityPre a.metric)).appR (similarityPost a.metric)).appL
        "SELECT *, ").appR " AS similarity_score FROM \"").appR a.schema).appR
        "\".\"").appR a.table).appR "\"").appR _).appR
        (vectorOrderByStr a.metric (a.vector_column.getD "")
          (vectorLiteral (a.vector_query.getD [])))).appR " LIMIT " |>.appR
        (toString a.limit)
  · have ht' : (truthyStr a.text_query && truthyStr a.search_column) = false :=
      Bool.eq_false_iff.mpr ht
    simp only [buildSearchQuery, hv, hc, hsafe, ht', Bool.and_self,
      Bool.not_true, Bool.and_false, Bool.false_eq_true, if_false, Bool.not_false,
      Bool.false_and, if_true, List.append_nil]
    refine ⟨_, rfl, ?_⟩
    exact (((((((((((strContains_here _
      (quotedVectorCast (vectorLiteral (a.vector_query.getD [])))).appL
        (similarityPre a.metric)).appR (similarityPost a.metric)).appL
        "SELECT *, ").appR " AS similarity_score FROM \"").appR a.schema).appR
        "\".\"").appR a.table).appR "\"").appR _).appR
        (vectorOrderByStr a.metric (a.vector_column.getD "")
          (vectorLiteral (a.vector_query.getD [])))).appR " LIMIT " |>.appR
        (toString a.limit)

/-- C1 witness: the amended statement evaluated at the concrete vector
search over `[1.0, 2.0]`. -/
theorem search_vector_literal_in_sql_not_params_witness :
    ∃ sql, buildSearchQuery vecSearchArgs = Except.ok (sql,
        (if truthyStr vecSearchArgs.collection_id then
          [vecSearchArgs.collection_id.getD ""] else []) ++
          (if truthyStr vecSearchArgs.text_query &&
              truthyStr vecSearchArgs.search_column then
            ["%" ++ vecSearchArgs.text_query.getD "" ++ "%"] else [])) ∧
      strContains sql
        (quotedVectorCast (vectorLiteral (vecSearchArgs.vector_query.getD []))) :=
  search_vector_literal_in_sql_not_params vecSearchArgs (by decide) (by decide)
    (by decide) (by decide)

/-- C2 counterexample: a table name full of characters the validator
rejects flows into both generated `get_table_data` SQL texts without any
validation failure, and an unvalidated schema name flows into the
`search_table` SQL text the same way — schema and table names are never
checked. -/
theorem table_identifier_unvalidated_counterexample :
    isSafeIdentifier (some badTableArgs.table) = false ∧
    (buildTableDataQueries badTableArgs).2.2 = none ∧
    strContains ((buildTableDataQueries badTableArgs).1.headD "") badTableArgs.table ∧
    isSafeIdentifier (some badSchemaSearchArgs.schema) = false ∧
    strContains (sqlOf (buildSearchQuery badSchemaSearchArgs))
      badSchemaSearchArgs.schema ∧
    paramsOf (buildSearchQuery badSchemaSearchArgs) = [] := by
  refine ⟨by decide, by decide, by decide, by decide, by decide, by decide⟩

/-- C2 (amended): the identifier validator guards only column names — the
sort column of `get_table_data` (whose failure raises after the count query
for the same request has already been constructed and sent), and the vector,
search and sort columns of `search_table`; schema and table names are
embedded into every generated SQL text without validation. -/
theorem only_column_identifiers_validated :
    (∀ a : TableDataArgs, truthyStr a.sort_by = true →
       isSafeIdentifier a.sort_by = false →
       buildTableDataQueries a =
         ([tableDataCountQuery a], [],
          some ("Invalid sort column: " ++ a.sort_by.getD ""))) ∧
    (∀ a : TableDataArgs,
       (truthyStr a.sort_by = true → isSafeIdentifier a.sort_by = true) →
       (buildTableDataQueries a).2.2 = none ∧
       strContains (tableDataCountQuery a) a.schema ∧
       strContains (tableDataCountQuery a) a.table) ∧
    (∀ a : SearchArgs, truthyList a.vector_query = true →
       truthyStr a.vector_column = true → isSafeIdentifier a.vector_column = false →
       buildSearchQuery a =
         Except.error ("Invalid vector column: " ++ a.vector_column.getD "")) ∧
    (∀ a : SearchArgs, (truthyList a.vector_query && truthyStr a.vector_column) = false →
       (truthyStr a.text_query && truthyStr a.search_column) = true →
       isSafeIdentifier a.search_column = false →
       buildSearchQuery a =
         Except.error ("Invalid search column: " ++ a.search_column.getD "")) := by
  refine ⟨?_, ?_, ?_, ?_⟩
  · intro a hb hu
    simp only [buildTableDataQueries, hb, hu, Bool.not_false, Bool.and_self, if_true]
  · intro a hsort
    refine ⟨buildTableDataQueries_no_error a hsort, ?_, ?_⟩
    · exact (((strContains_here "SELECT COUNT(*) FROM \"" a.schema).appR
        "\".\"").appR a.table).appR "\"" |>.appR _
    · exact ((strContains_here _ a.table).appR "\"").appR _
  · intro a hv hc hu
    simp only [buildSearchQuery, hv, hc, hu, Bool.not_false, Bool.and_self,
      Bool.true_and, if_true]
  · intro a hvec ht hu
    simp only [buildSearchQuery, hvec, ht, hu, Bool.not_false, Bool.and_self,
      Bool.false_and, Bool.false_eq_true, if_false, Bool.and_true, if_true]

/-- C2 witness: the amended statement evaluated at concrete requests with
an unsafe sort column, a safe configuration, an unsafe vector column and an
unsafe search column. -/
theorem only_column_identifiers_validated_witness :
    buildTableDataQueries badSortArgs =
      ([tableDataCountQuery badSortArgs], [],
       some ("Invalid sort column: " ++ (some "evil; --").getD "")) ∧
    (buildTableDataQueries badTableArgs).2.2 = none ∧
    buildSearchQuery badVcolSearchArgs =
      Except.error ("Invalid vector column: " ++ (some "emb col").getD "") ∧
    buildSearchQuery badScolSearchArgs =
      Except.error ("Invalid search column: " ++ (some "bad col").getD "") :=
  ⟨only_column_identifiers_validated.1 badSortArgs (by decide) (by decide),
   (only_column_identifiers_validated.2.1 badTableArgs (by decide)).1,
   only_column_identifiers_validated.2.2.1 badVcolSearchArgs (by decide) (by decide)
     (by decide),
   only_column_identifiers_validated.2.2.2 badScolSearchArgs (by decide) (by decide)
     (by decide)⟩

/-- C6 counterexample: the search endpoint accepts an arbitrary
caller-supplied limit — here one million, far above every configured
maximum in the repository (1000 for table data, 200 for global search,
10000 for export) — and interpolates it unchanged into the generated
SQL. -/
theorem search_limit_unclamped_counterexample :
    buildSearchQuery bigLimitSearchArgs =
      Except.ok ("SELECT * FROM \"public\".\"docs\"  LIMIT 1000000", []) ∧
    strContains (sqlOf (buildSearchQuery bigLimitSearchArgs)) " LIMIT 1000000" ∧
    (1000000 : Int) > 1000 := by
  refine ⟨rfl, by decide, by decide⟩

/-- C6 (amended): the paginated-read endpoint bounds its page size by
request validation — a successful read always carries an effective limit
between 1 and 1000 — but `search_table` interpolates the caller-supplied
limit into the SQL text unchanged, with no maximum. -/
theorem limit_clamping_only_table_data :
    (∀ (tbl : List Row) (schema table : String) (page pageSize : Int)
       (sortBy : Option String) (sortOrder : String) (collectionId : Option String)
       (res : TableDataResult),
       apiGetTableData tbl schema table page pageSize sortBy sortOrder collectionId =
         Except.ok res →
       1 ≤ res.page_size ∧ res.page_size ≤ 1000) ∧
    (∀ (a : SearchArgs) (sql : String) (ps : List String),
       buildSearchQuery a = Except.ok (sql, ps) →
       strContains sql (" LIMIT " ++ toString a.limit)) := by
  constructor
  · intro tbl schema table page pageSize sb so cid res h
    unfold apiGetTableData at h
    by_cases hrange : (page < 1 || pageSize < 1 || pageSize > 1000) = true
    · rw [if_pos hrange] at h
      exact absurd h (by simp)
    · rw [if_neg hrange] at h
      simp only [Bool.or_eq_true, decide_eq_true_eq, not_or, not_lt] at hrange
      obtain ⟨⟨-, h2⟩, h3⟩ := hrange
      unfold getTableData at h
      cases he : (buildTableDataQueries
          { schema := schema, table := table, limit := pageSize,
            offset := (page - 1) * pageSize, sort_by := sb,
            sort_order := so, collection_id := cid }).2.2 with
      | some e =>
        rw [he] at h
        exact absurd h (by simp)
      | none =>
        rw [he] at h
        rw [Except.ok.injEq] at h
        subst h
        exact ⟨h2, h3⟩
  · intro a sql ps h
    simp only [buildSearchQuery] at h
    split at h
    · exact absurd h (by simp)
    · split at h
      · exact absurd h (by simp)
      · split at h
        · exact absurd h (by simp)
        · rw [Except.ok.injEq, Prod.mk.injEq] at h
          obtain ⟨h1, -⟩ := h
          subst h1
          exact strContains_tail2 _ " LIMIT " (toString a.limit)

/-- C6 witness: the amended statement evaluated at a concrete in-range read
and at the concrete million-row search request. -/
theorem limit_clamping_only_table_data_witness :
    ((1 : Int) ≤ 20 ∧ (20 : Int) ≤ 1000) ∧
    strContains (sqlOf (buildSearchQuery bigLimitSearchArgs))
      (" LIMIT " ++ toString bigLimitSearchArgs.limit) :=
  ⟨limit_clamping_only_table_data.1 c5Table "public" "docs" 1 20 none "asc" none
     { data := ((c5Table.filter (rowMatches none)).drop 0).take 20,
       total_count := 48, page_size := 20, offset := 0,
       has_next := true, has_previous := false } rfl,
   limit_clamping_only_table_data.2 bigLimitSearchArgs
     (sqlOf (buildSearchQuery bigLimitSearchArgs))
     (paramsOf (buildSearchQuery bigLimitSearchArgs)) rfl⟩

/-- C7 counterexample: after `disconnect()` on a manager holding cached
discovery results, both caches still hold their entries; and after a
reconnect of the same manager, a table listing cached before the disconnect
is served again (the fresh listing of the new target is ignored while the
TTL has not expired). -/
theorem disconnect_preserves_caches_counterexample :
    (managerDisconnect staleCacheMgr).tables_cache = some (["public.docs_old"], 0) ∧
    (managerDisconnect staleCacheMgr).metadata_cache =
      [("public.docs", ("cached-metadata", 0))] ∧
    getTablesWithVectors
        (managerConnect (managerDisconnect staleCacheMgr) "postgresql://new-target"
          true 10).1 10 ["public.docs_new"] =
      Except.ok (["public.docs_old"],
        (managerConnect (managerDisconnect staleCacheMgr) "postgresql://new-target"
          true 10).1) := by
  refine ⟨by decide, by decide, rfl⟩

/-- C7 (amended): `disconnect()` closes the pool and clears the connection
string but leaves the table-listing cache and the per-table metadata cache
untouched; consequently, after a reconnect of the same manager, a discovery
result cached before the disconnect is returned again by
`get_tables_with_vectors` as long as its age is below the TTL.  Cache
entries expire only by TTL. -/
theorem disconnect_clears_pool_not_caches :
    (∀ m : DBManagerState,
       managerIsConnected (managerDisconnect m) = false ∧
       (managerDisconnect m).connection_string = none ∧
       (managerDisconnect m).tables_cache = m.tables_cache ∧
       (managerDisconnect m).metadata_cache = m.metadata_cache) ∧
    (∀ (m : DBManagerState) (dsn : String) (now ts : Nat)
       (data fresh : List String),
       m.tables_cache = some (data, ts) → now - ts < m.tables_cache_ttl →
       getTablesWithVectors (managerConnect (managerDisconnect m) dsn true now).1
         now fresh =
         Except.ok (data,
           (managerConnect (managerDisconnect m) dsn true now).1)) := by
  constructor
  · intro m
    exact ⟨rfl, rfl, rfl, rfl⟩
  · intro m dsn now ts data fresh hcache httl
    simp [managerConnect, managerDisconnect, cleanupConnection,
      getTablesWithVectors, managerIsConnected, hcache, httl]

/-- C7 witness: the amended statement evaluated at the concrete manager
with cached discovery results. -/
theorem disconnect_clears_pool_not_caches_witness :
    getTablesWithVectors
        (managerConnect (managerDisconnect staleCacheMgr) "postgresql://new-target"
          true 10).1 10 ["public.docs_new"] =
      Except.ok (["public.docs_old"],
        (managerConnect (managerDisconnect staleCacheMgr) "postgresql://new-target"
          true 10).1) :=
  disconnect_clears_pool_not_caches.2 staleCacheMgr "postgresql://new-target" 10 0
    ["public.docs_old"] ["public.docs_new"] (by decide) (by decide)

/-- C8 counterexample: the registry returns an already-registered connected
manager even though its fresh `test_connection()` reports failure —
`test_connection` cannot raise, so the disposal branch of `connect_session`
never runs and the returned status is discarded. -/
theorem connect_session_returns_failing_manager_counterexample :
    (testConnection failingTestMgr).connected = false ∧
    connectSession c8State "alice" "sess-1" true true =
      Except.ok (failingTestMgr, c8State) := by
  refine ⟨by decide, rfl⟩

/-- C8 (amended): an existing registered manager is returned whenever
`is_connected()` is true, regardless of what its `test_connection()`
reports (the method returns failure as a value and never raises, so the
stale-entry disposal branch is unreachable); on the fresh-build path a new
manager is published into the registry only when both the connect and the
probe succeed, and every failure surfaces a descriptive error without
publishing the half-built manager; a missing session record surfaces a
not-found error. -/
theorem connect_session_paths :
    (∀ (st : SysState) (uid sid : String) (c t : Bool) (rec : SessionRec) (ex : Mgr),
       st.sessions.lookup sid = some rec → rec.user_id = uid →
       st.active.lookup sid = some ex → ex.connected = true →
       connectSession st uid sid c t = Except.ok (ex, st)) ∧
    (∀ (st : SysState) (uid sid : String) (t : Bool) (rec : SessionRec),
       st.sessions.lookup sid = some rec → rec.user_id = uid →
       (∀ ex, st.active.lookup sid = some ex → ex.connected = false) →
       connectSession st uid sid false t =
         Except.error (.connectError
           ("Failed to connect to database for session " ++ sid))) ∧
    (∀ (st : SysState) (uid sid : String) (rec : SessionRec),
       st.sessions.lookup sid = some rec → rec.user_id = uid →
       (∀ ex, st.active.lookup sid = some ex → ex.connected = false) →
       connectSession st uid sid true false =
         Except.error (.connectError
           ("Database connection test failed for session " ++ sid))) ∧
    (∀ (st : SysState) (uid sid : String) (rec : SessionRec),
       st.sessions.lookup sid = some rec → rec.user_id = uid →
       (∀ ex, st.active.lookup sid = some ex → ex.connected = false) →
       connectSession st uid sid true true =
         Except.ok ((⟨st.next_mid, true, true⟩ : Mgr),
           { st with
             active := insertActive st.active sid ⟨st.next_mid, true, true⟩,
             next_mid := st.next_mid + 1 })) ∧
    (∀ (st : SysState) (uid sid : String) (c t : Bool),
       st.sessions.lookup sid = none →
       connectSession st uid sid c t = Except.error (.notFound sid)) := by
  refine ⟨?_, ?_, ?_, ?_, ?_⟩
  · intro st uid sid c t rec ex hrec huid hex hconn
    unfold connectSession
    rw [hrec]
    simp only [huid, bne_self_eq_false, Bool.false_eq_true, if_false]
    rw [hex]
    simp [hconn]
  · intro st uid sid t rec hrec huid hnolive
    unfold connectSession
    rw [hrec]
    simp only [huid, bne_self_eq_false, Bool.false_eq_true, if_false]
    cases hax : st.active.lookup sid with
    | none => simp [connectFresh]
    | some ex => simp [hnolive ex hax, connectFresh]
  · intro st uid sid rec hrec huid hnolive
    unfold connectSession
    rw [hrec]
    simp only [huid, bne_self_eq_false, Bool.false_eq_true, if_false]
    cases hax : st.active.lookup sid with
    | none => simp [connectFresh, testConnection]
    | some ex => simp [hnolive ex hax, connectFresh, testConnection]
  · intro st uid sid rec hrec huid hnolive
    unfold connectSession
    rw [hrec]
    simp only [huid, bne_self_eq_false, Bool.false_eq_true, if_false]
    cases hax : st.active.lookup sid with
    | none => simp [connectFresh, testConnection]
    | some ex => simp [hnolive ex hax, connectFresh, testConnection]
  · intro st uid sid c t hnone
    unfold connectSession
    rw [hnone]

/-- C8 witness: the amended statement evaluated at concrete registry
states — a live manager with a failing probe is returned as-is, and the
fresh-build path publishes only on full success. -/
theorem connect_session_paths_witness :
    connectSession c8State "alice" "sess-1" true true =
      Except.ok (failingTestMgr, c8State) ∧
    connectSession c8FreshState "alice" "sess-1" false true =
      Except.error (.connectError
        ("Failed to connect to database for session " ++ "sess-1")) ∧
    connectSession c8FreshState "alice" "sess-1" true false =
      Except.error (.connectError
        ("Database connection test failed for session " ++ "sess-1")) ∧
    connectSession c8FreshState "alice" "sess-1" true true =
      Except.ok ((⟨3, true, true⟩ : Mgr),
        { c8FreshState with
          active := insertActive c8FreshState.active "sess-1" ⟨3, true, true⟩,
          next_mid := 4 }) :=
  ⟨connect_session_paths.1 c8State "alice" "sess-1" true true
     { user_id := "alice", db_url := "postgresql://target" } failingTestMgr
     (by decide) rfl (by decide) (by decide),
   connect_session_paths.2.1 c8FreshState "alice" "sess-1" true
     { user_id := "alice", db_url := "postgresql://target" }
     (by decide) rfl (fun ex h => Option.noConfusion h),
   connect_session_paths.2.2.1 c8FreshState "alice" "sess-1"
     { user_id := "alice", db_url := "postgresql://target" }
     (by decide) rfl (fun ex h => Option.noConfusion h),
   connect_session_paths.2.2.2.1 c8FreshState "alice" "sess-1"
     { user_id := "alice", db_url := "postgresql://target" }
     (by decide) rfl (fun ex h => Option.noConfusion h)⟩

/-- C9: evaluation of the cleanup sweep at a manager idle for 40 minutes
(2400 seconds) with a passing health check, against a 30-minute idle
threshold: the sweep keeps it in the registry.  The source computes
`cutoff_time` and never reads it, so idleness never causes removal. -/
theorem cleanup_keeps_idle_healthy_manager :
    cleanupInactive 2400 30 [("sess-1", idleHealthyMgr)] =
      [("sess-1", idleHealthyMgr)] ∧
    30 * 60 < 2400 - idleHealthyMgr.last_activity := by
  refine ⟨by decide, by decide⟩

/-- C10: `get_session_manager` looks up the live-manager registry by the
session id alone and returns a registered connected manager without
consulting the requesting user id — any two users receive the identical
result for the same session id. -/
theorem session_manager_ignores_user_identity :
    ∀ (st : SysState) (u1 u2 sid : String) (mgr : Mgr) (c t : Bool),
      st.active.lookup sid = some mgr → mgr.connected = true →
      getSessionManager st u1 sid c t = Except.ok (mgr, st) ∧
      getSessionManager st u1 sid c t = getSessionManager st u2 sid c t := by
  intro st u1 u2 sid mgr c t hlk hconn
  have h1 : ∀ u, getSessionManager st u sid c t = Except.ok (mgr, st) := by
    intro u
    unfold getSessionManager
    rw [hlk]
    simp [hconn]
  exact ⟨h1 u1, (h1 u1).trans (h1 u2).symm⟩

/-- C10 witness: the session `sess-1` is owned by `alice` in the metadata
store, yet the distinct user `mallory` is handed the very same live
manager. -/
theorem session_manager_ignores_user_identity_witness :
    ("alice" ≠ "mallory") ∧
    ownerState.sessions.lookup "sess-1" =
      some { user_id := "alice", db_url := "postgresql://target" } ∧
    getSessionManager ownerState "mallory" "sess-1" true true =
      Except.ok (liveMgr, ownerState) :=
  ⟨by decide, by decide,
   (session_manager_ignores_user_identity ownerState "mallory" "alice" "sess-1"
     liveMgr true true (by decide) (by decide)).1⟩
